import Mathlib

/-!
# Verification of the Spotify proxy worker (src/index.ts)

Shallow embedding of the worker's route handlers over an explicit key-value
store.  The Cloudflare KV namespace is modelled as an association list of
entries carrying an optional absolute expiry time; `now` is the current time
in seconds.  JSON serialisation/parsing of the two structured records
(`spotify_credentials`, `spotify_tokens`) is abstracted by a typed value sum
`KVValue`, since the only writer and the only reader of each key use the
same JSON shape.  HTTP responses are modelled as a status, the explicitly
set headers, and a body string.  The HTML page bodies are presentation and
are abbreviated to the phrases the handlers' contracts mention.
-/

namespace SpotifyProxy

/-- Credentials record stored under key `spotify_credentials`
(src/index.ts lines 331-335). -/
structure Credentials where
  client_id : String
  client_secret : String
  created_at : String
deriving DecidableEq, Repr

/-- Token payload returned by the upstream token endpoint and stored under
key `spotify_tokens`. -/
structure TokenPayload where
  access_token : String
  refresh_token : String
  expires_in : Nat
  token_type : String
  scope : String
deriving DecidableEq, Repr

/-- Typed stand-in for the JSON strings held in the KV store. -/
inductive KVValue where
  | raw (s : String)
  | creds (c : Credentials)
  | tokens (t : TokenPayload)
deriving DecidableEq, Repr

/-- One stored entry: the value and its absolute expiry time, if any. -/
structure KVEntry where
  value : KVValue
  expiresAt : Option Nat
deriving DecidableEq, Repr

/-- The KV namespace: an association list from keys to entries. -/
abbrev KVStore := List (String × KVEntry)

/-- Raw lookup of the entry stored under `key`, ignoring expiry. -/
def kvGetEntry (store : KVStore) (key : String) : Option KVEntry :=
  (store.find? (fun e => e.1 == key)).map (·.2)

/-- `KV.get`: an entry whose expiry has passed behaves as absent. -/
def kvGet (store : KVStore) (now : Nat) (key : String) : Option KVValue :=
  match kvGetEntry store key with
  | none => none
  | some e =>
    match e.expiresAt with
    | none => some e.value
    | some t => if now < t then some e.value else none

/-- `KV.put` with an optional `expirationTtl` (seconds from `now`). -/
def kvPut (store : KVStore) (now : Nat) (key : String) (v : KVValue)
    (ttl : Option Nat) : KVStore :=
  (key, ⟨v, ttl.map (now + ·)⟩) :: store.filter (fun e => !(e.1 == key))

/-- `KV.delete`. -/
def kvDelete (store : KVStore) (key : String) : KVStore :=
  store.filter (fun e => !(e.1 == key))

/-- `getStoredCredentials` (src/index.ts lines 639-642): read and parse the
`spotify_credentials` key, `null` when absent. -/
def getStoredCredentials (store : KVStore) (now : Nat) : Option Credentials :=
  match kvGet store now "spotify_credentials" with
  | some (.creds c) => some c
  | _ => none

/-- `getStoredTokens` (src/index.ts lines 644-647): read and parse the
`spotify_tokens` key, `null` when absent. -/
def getStoredTokens (store : KVStore) (now : Nat) : Option TokenPayload :=
  match kvGet store now "spotify_tokens" with
  | some (.tokens t) => some t
  | _ => none

/-! ## HTTP model -/

/-- A response: status code, the headers explicitly set by the handler, and
the body.  A `Response` constructed without a status defaults to 200. -/
structure HttpResponse where
  status : Nat
  headers : List (String × String)
  body : String
deriving DecidableEq, Repr

/-- `corsHeaders` (src/index.ts lines 16-20). -/
def corsHeaders : List (String × String) :=
  [("Access-Control-Allow-Origin", "*"),
   ("Access-Control-Allow-Methods", "GET, POST, PUT, DELETE, OPTIONS"),
   ("Access-Control-Allow-Headers", "Content-Type, Authorization")]

/-- Headers of a JSON response carrying the CORS set. -/
def jsonCorsHeaders : List (String × String) :=
  ("Content-Type", "application/json") :: corsHeaders

/-- Headers of an HTML response carrying the CORS set. -/
def htmlCorsHeaders : List (String × String) :=
  ("Content-Type", "text/html") :: corsHeaders

/-- `Response.redirect(url, 302)`: a 302 with only a `Location` header. -/
def redirect302 (url : String) : HttpResponse :=
  ⟨302, [("Location", url)], ""⟩

/-- A JavaScript string coming out of `searchParams.get` / `formData.get` is
`null` (modelled `none`) or a string; `!x` is true when it is `null` or
empty. -/
def falsy : Option String → Bool
  | none => true
  | some s => s.isEmpty

/-- `s` occurs as a contiguous substring of `t`. -/
def containsSub (t s : String) : Prop := ∃ l r, t = l ++ s ++ r

/-! ## Random state generation -/

/-- The alphabet of `generateRandomString` (src/index.ts lines 589-590). -/
def charset : String :=
  "ABCDEFGHIJKLMNOPQRSTUVWXYZabcdefghijklmnopqrstuvwxyz0123456789"

/-- `generateRandomString` (src/index.ts lines 588-596).  The successive
draws of `Math.floor(Math.random() * charset.length)` are supplied by
`rand`, reduced mod the alphabet size so every draw is in range. -/
def generateRandomString (length : Nat) (rand : Nat → Nat) : String :=
  String.mk ((List.range length).map
    (fun i => charset.toList.getD (rand i % charset.length) 'A'))

/-! ## `encodeURIComponent` (ECMAScript), faithful on ASCII input -/

/-- Characters `encodeURIComponent` leaves unescaped. -/
def isUnreservedURIChar (c : Char) : Bool :=
  c.isAlpha || c.isDigit ||
    c ∈ ['-', '_', '.', '!', '~', '*', Char.ofNat 39, '(', ')']

/-- Upper-case hex digits. -/
def hexUpper : List Char := "0123456789ABCDEF".toList

/-- Percent-encoding of one ASCII character. -/
def percentEncode (c : Char) : String :=
  String.mk ['%', hexUpper.getD (c.toNat / 16) '0', hexUpper.getD (c.toNat % 16) '0']

/-- `encodeURIComponent` restricted to ASCII strings (all inputs the worker
encodes are ASCII). -/
def encodeURIComponent (s : String) : String :=
  String.join (s.toList.map
    (fun c => if isUnreservedURIChar c then String.mk [c] else percentEncode c))

/-! ## Root and health handlers: the setup classification -/

/-- The status triple computed by `handleRoot` (src/index.ts lines 76-90);
the surrounding HTML assembly is presentation and out of scope. -/
structure RootStatus where
  setupStatus : String
  nextAction : String
  nextActionText : String
deriving DecidableEq, Repr

/-- The classification part of `handleRoot` (src/index.ts lines 72-90). -/
def handleRootStatus (store : KVStore) (now : Nat) : RootStatus :=
  match getStoredCredentials store now with
  | some _ =>
    match getStoredTokens store now with
    | some _ => ⟨"complete", "/now-playing", "View Now Playing"⟩
    | none => ⟨"credentials_only", "/setup", "Connect Spotify Account"⟩
  | none => ⟨"not_started", "/credentials", "Setup Credentials"⟩

/-- The health payload fields that depend on the store
(src/index.ts lines 547-574); `status`, `timestamp`, `environment` and the
static endpoint list are omitted as they carry no state. -/
structure HealthInfo where
  credentials_configured : Bool
  oauth_configured : Bool
  setup_complete : Bool
  next_step : String
deriving DecidableEq, Repr

/-- The classification part of `handleHealth` (src/index.ts lines 547-574). -/
def healthInfo (store : KVStore) (now : Nat) : HealthInfo :=
  let hasValidCredentials := (getStoredCredentials store now).isSome
  let hasValidTokens := (getStoredTokens store now).isSome
  { credentials_configured := hasValidCredentials
    oauth_configured := hasValidTokens
    setup_complete := hasValidCredentials && hasValidTokens
    next_step :=
      if !hasValidCredentials then "Configure Spotify credentials at /credentials"
      else if !hasValidTokens then "Complete OAuth setup at /setup"
      else "Ready to use API endpoints" }

/-- The three-valued setup status of spec section 4.1. -/
inductive SetupStatus where
  | NOT_STARTED
  | CREDENTIALS_ONLY
  | COMPLETE
deriving DecidableEq, Repr

/-- Written from the spec's table in section 4.1, for refinement:
`status(credentials_present, tokens_present)`; NOT_STARTED when credentials
are absent, CREDENTIALS_ONLY when credentials present and tokens absent,
COMPLETE when both present. -/
def specStatus (credentials_present tokens_present : Bool) : SetupStatus :=
  if !credentials_present then .NOT_STARTED
  else if !tokens_present then .CREDENTIALS_ONLY
  else .COMPLETE

/-- The string `handleRoot` uses for each status value. -/
def statusString : SetupStatus → String
  | .NOT_STARTED => "not_started"
  | .CREDENTIALS_ONLY => "credentials_only"
  | .COMPLETE => "complete"

/-! ## `/setup` -/

/-- The scope string requested at authorization (src/index.ts lines 253-254). -/
def spotifyScopes : String :=
  "user-read-currently-playing user-read-recently-played user-read-playback-state"

/-- Stand-in for `getSetupHTML()` (presentation, out of scope). -/
def setupHTML : String := "Spotify Proxy Setup"

/-- `handleSetup` (src/index.ts lines 238-281).  `origin` is
`new URL(request.url).origin`; `rand` supplies the random draws.  Returns
the response and the store after the handler ran. -/
def handleSetup (method : String) (origin : String) (rand : Nat → Nat)
    (store : KVStore) (now : Nat) : HttpResponse × KVStore :=
  match getStoredCredentials store now with
  | none => (redirect302 (origin ++ "/credentials"), store)
  | some storedCredentials =>
    if method == "POST" then
      let redirectUri := origin ++ "/callback"
      let scope := spotifyScopes
      let state := generateRandomString 16 rand
      let store1 := kvPut store now ("oauth_state_" ++ state) (.raw "pending") (some 600)
      let authUrl :=
        "https://accounts.spotify.com/authorize?" ++
        "response_type=code&" ++
        "client_id=" ++ storedCredentials.client_id ++ "&" ++
        "scope=" ++ encodeURIComponent scope ++ "&" ++
        "redirect_uri=" ++ encodeURIComponent redirectUri ++ "&" ++
        "state=" ++ state
      (redirect302 authUrl, store1)
    else
      (⟨200, htmlCorsHeaders, setupHTML⟩, store)

/-! ## `/credentials` -/

/-- The two form fields read by `handleCredentials`; `formData.get` yields
`null` for a missing field. -/
structure CredentialsForm where
  client_id : Option String
  client_secret : Option String
deriving DecidableEq, Repr

/-- The regex `/^[a-zA-Z0-9]+$/` as a Bool predicate. -/
def matchesClientIdPattern (s : String) : Bool :=
  !s.isEmpty && s.toList.all (fun c => c.isAlpha || c.isDigit)

/-- Stand-in for `getCredentialsHTML(msg, url)` (presentation, out of
scope beyond carrying the error message). -/
def credentialsHTML (errorMessage : Option String) : String :=
  "Spotify App Credentials " ++ errorMessage.getD ""

/-- `handleCredentials` (src/index.ts lines 286-369).  `nowIso` stands for
`new Date().toISOString()`; `origin` for the request origin used by the
redirect.  The `formData()` parse failure branch (HTTP 500) is outside this
model: `form` is the already-parsed form. -/
def handleCredentials (method : String) (form : CredentialsForm)
    (nowIso : String) (origin : String) (store : KVStore) (now : Nat) :
    HttpResponse × KVStore :=
  if method == "POST" then
    if falsy form.client_id || falsy form.client_secret then
      (⟨400, htmlCorsHeaders,
        credentialsHTML (some "Please provide both Client ID and Client Secret")⟩,
       store)
    else
      let clientId := form.client_id.getD ""
      let clientSecret := form.client_secret.getD ""
      if clientId.length < 30 || !matchesClientIdPattern clientId then
        (⟨400, htmlCorsHeaders,
          credentialsHTML
            (some "Invalid Client ID format. Please check your Spotify app credentials.")⟩,
         store)
      else
        let credentials : Credentials := ⟨clientId, clientSecret, nowIso⟩
        (redirect302 (origin ++ "/setup"),
         kvPut store now "spotify_credentials" (.creds credentials) none)
  else
    (⟨200, htmlCorsHeaders, credentialsHTML none⟩, store)

/-! ## `/callback` and the token exchange -/

/-- The upstream `fetch` result of the token-endpoint POST, as far as the
worker inspects it: `response.ok`, `response.statusText`, and the parsed
JSON body on success. -/
structure FetchResponse where
  status : Nat
  statusText : String
  tokenData : TokenPayload
deriving DecidableEq, Repr

/-- WHATWG `Response.ok`: status in the range 200-299. -/
def FetchResponse.isOk (r : FetchResponse) : Bool :=
  200 ≤ r.status && r.status ≤ 299

/-- Result of `exchangeCodeForTokens`: `{success:false, error}` or
`{success:true, data}`. -/
inductive ExchangeResult where
  | failure (error : String)
  | success (data : TokenPayload)
deriving DecidableEq, Repr

/-- `exchangeCodeForTokens` (src/index.ts lines 598-637).  The network call
itself is the external collaborator: its outcome is the `upstream`
parameter; `upstreamCalls` counts whether the fetch was reached.  `code`
and `callbackUrl` only feed the outgoing request body, which is external. -/
def exchangeCodeForTokens (code : String) (callbackUrl : String)
    (upstream : FetchResponse) (store : KVStore) (now : Nat) :
    ExchangeResult × Nat :=
  match getStoredCredentials store now with
  | none =>
    (.failure "No Spotify credentials found. Please complete setup first.", 0)
  | some _credentials =>
    if !upstream.isOk then
      (.failure ("Token exchange failed: " ++ upstream.statusText), 1)
    else
      (.success upstream.tokenData, 1)

/-- The query parameters of a callback request. -/
structure CallbackQuery where
  code : Option String
  state : Option String
  error : Option String
deriving DecidableEq, Repr

/-- Success page of the callback (the h1 text of src/index.ts line 417;
the rest of the page is presentation). -/
def callbackSuccessHTML : String :=
  "OAuth Setup Complete! Your Spotify account has been successfully connected."

/-- Outcome of `handleCallback`: the response, the store afterwards, and
how many times the handler read and deleted the State Marker and called
the upstream token endpoint. -/
structure CallbackResult where
  response : HttpResponse
  store : KVStore
  markerReads : Nat
  markerDeletes : Nat
  upstreamCalls : Nat
deriving Repr

/-- `handleCallback` (src/index.ts lines 374-436).  `requestUrl` is the
request URL handed to the token exchange.  The four error responses set no
headers (the source passes no `headers` to `new Response`). -/
def handleCallback (q : CallbackQuery) (requestUrl : String)
    (upstream : FetchResponse) (store : KVStore) (now : Nat) : CallbackResult :=
  if !falsy q.error then
    ⟨⟨400, [], "OAuth Error: " ++ q.error.getD ""⟩, store, 0, 0, 0⟩
  else if falsy q.code || falsy q.state then
    ⟨⟨400, [], "Missing authorization code or state"⟩, store, 0, 0, 0⟩
  else
    let code := q.code.getD ""
    let state := q.state.getD ""
    match kvGet store now ("oauth_state_" ++ state) with
    | none =>
      ⟨⟨400, [], "Invalid or expired state parameter"⟩, store, 1, 0, 0⟩
    | some _storedState =>
      match exchangeCodeForTokens code requestUrl upstream store now with
      | (.failure err, calls) =>
        ⟨⟨400, [], "Token exchange failed: " ++ err⟩, store, 1, 0, calls⟩
      | (.success data, calls) =>
        let store1 := kvPut store now "spotify_tokens" (.tokens data) (some 3600)
        let store2 := kvDelete store1 ("oauth_state_" ++ state)
        ⟨⟨200, htmlCorsHeaders, callbackSuccessHTML⟩, store2, 1, 1, calls⟩

/-! ## `/now-playing` and `/recent` -/

/-- The `{ playing: false }` body synthesized for an upstream 204
(src/index.ts line 465). -/
def nowPlayingIdleBody : String :=
  "\x7b\"playing\":false,\"message\":\"No track currently playing\"\x7d"

/-- The 401 body both data routes return without tokens
(src/index.ts lines 445-447 and 504-506). -/
def noTokensBody : String :=
  "\x7b\"error\":\"No valid tokens found. Please complete OAuth setup first.\"\x7d"

/-- An upstream resource `fetch` result: status and the JSON body. -/
structure ApiResponse where
  status : Nat
  body : String
deriving DecidableEq, Repr

/-- WHATWG `Response.ok` for the resource call. -/
def ApiResponse.isOk (r : ApiResponse) : Bool :=
  200 ≤ r.status && r.status ≤ 299

/-- `handleNowPlaying` (src/index.ts lines 441-495).  `upstream` is the
outcome the external API would return if called; the second component
counts how many upstream calls the handler made.  The 2xx branch
re-serialises the parsed JSON body; that round-trip is modelled as the
identity on the body string. -/
def handleNowPlaying (upstream : ApiResponse) (store : KVStore) (now : Nat) :
    HttpResponse × Nat :=
  match getStoredTokens store now with
  | none => (⟨401, jsonCorsHeaders, noTokensBody⟩, 0)
  | some _tokens =>
    if upstream.status == 204 then
      (⟨200, jsonCorsHeaders, nowPlayingIdleBody⟩, 1)
    else if !upstream.isOk then
      (⟨upstream.status, jsonCorsHeaders,
        "\x7b\"error\":\"Failed to fetch current track\"\x7d"⟩, 1)
    else
      (⟨200, jsonCorsHeaders, upstream.body⟩, 1)

/-- `handleRecent` (src/index.ts lines 500-542), same conventions as
`handleNowPlaying` (no 204 special case). -/
def handleRecent (upstream : ApiResponse) (store : KVStore) (now : Nat) :
    HttpResponse × Nat :=
  match getStoredTokens store now with
  | none => (⟨401, jsonCorsHeaders, noTokensBody⟩, 0)
  | some _tokens =>
    if !upstream.isOk then
      (⟨upstream.status, jsonCorsHeaders,
        "\x7b\"error\":\"Failed to fetch recent tracks\"\x7d"⟩, 1)
    else
      (⟨200, jsonCorsHeaders, upstream.body⟩, 1)

/-! ## Concrete values used by witnesses and counterexamples -/

/-- A token payload with the usual one-hour declared expiry. -/
def demoPayload : TokenPayload :=
  ⟨"demo-access-token", "demo-refresh-token", 3600, "Bearer", spotifyScopes⟩

/-- A token payload whose declared expiry is two hours, not one. -/
def longPayload : TokenPayload :=
  ⟨"demo-access-token", "demo-refresh-token", 7200, "Bearer", spotifyScopes⟩

/-- A stored credentials record; the client id has exactly 30 alphanumeric
characters. -/
def demoCreds : Credentials :=
  ⟨"abcdefghijklmnopqrstuvwxyz0123", "demo-secret", "2026-01-01T00:00:00.000Z"⟩

/-- A store holding credentials and a pending state marker `abc` expiring
at time 600. -/
def demoCallbackStore : KVStore :=
  [("oauth_state_abc", ⟨.raw "pending", some 600⟩),
   ("spotify_credentials", ⟨.creds demoCreds, none⟩)]

/-- A store holding only a tokens record. -/
def demoTokensStore : KVStore :=
  [("spotify_tokens", ⟨.tokens demoPayload, none⟩)]

/-- A store holding only a credentials record. -/
def demoCredsStore : KVStore :=
  [("spotify_credentials", ⟨.creds demoCreds, none⟩)]

/-- A successful upstream token exchange answering with `longPayload`. -/
def demoFetchLong : FetchResponse := ⟨200, "OK", longPayload⟩

/-- A successful upstream token exchange answering with `demoPayload`. -/
def demoFetchOk : FetchResponse := ⟨200, "OK", demoPayload⟩

/-- A rejected upstream token exchange. -/
def demoFetchBad : FetchResponse := ⟨400, "Bad Request", demoPayload⟩

/-! ## Store lemmas -/

theorem kvGetEntry_kvPut_self (store : KVStore) (now : Nat) (key : String)
    (v : KVValue) (ttl : Option Nat) :
    kvGetEntry (kvPut store now key v ttl) key = some ⟨v, ttl.map (now + ·)⟩ := by
  simp [kvGetEntry, kvPut, List.find?]

theorem kvGetEntry_kvDelete_self (store : KVStore) (key : String) :
    kvGetEntry (kvDelete store key) key = none := by
  induction store with
  | nil => rfl
  | cons hd tl ih =>
    by_cases h : hd.1 = key
    · simp only [kvGetEntry, kvDelete, List.filter] at ih ⊢
      rw [show (!(hd.1 == key)) = false by simp [h]]
      exact ih
    · simp only [kvGetEntry, kvDelete, List.filter] at ih ⊢
      rw [show (!(hd.1 == key)) = true by simp [h]]
      simp only [List.find?]
      rw [show (hd.1 == key) = false by simp [h]]
      exact ih

theorem kvGetEntry_kvDelete_ne (store : KVStore) (key key' : String)
    (h : key' ≠ key) :
    kvGetEntry (kvDelete store key) key' = kvGetEntry store key' := by
  induction store with
  | nil => rfl
  | cons hd tl ih =>
    by_cases hk : hd.1 = key
    · have hne : (hd.1 == key') = false := by
        simp only [hk, beq_eq_false_iff_ne, ne_eq]
        exact fun e => h e.symm
      simp only [kvGetEntry, kvDelete, List.filter] at ih ⊢
      rw [show (!(hd.1 == key)) = false by simp [hk]]
      simp only [List.find?]
      rw [hne]
      exact ih
    · simp only [kvGetEntry, kvDelete, List.filter] at ih ⊢
      rw [show (!(hd.1 == key)) = true by simp [hk]]
      simp only [List.find?]
      by_cases hk' : hd.1 = key'
      · rw [show (hd.1 == key') = true by simp [hk']]
      · rw [show (hd.1 == key') = false by simp [hk']]
        exact ih

theorem kvGet_kvDelete_self (store : KVStore) (now : Nat) (key : String) :
    kvGet (kvDelete store key) now key = none := by
  simp [kvGet, kvGetEntry_kvDelete_self]

theorem kvGet_kvPut_self (store : KVStore) (now : Nat) (key : String)
    (v : KVValue) (ttl : Nat) (h : 0 < ttl) :
    kvGet (kvPut store now key v (some ttl)) now key = some v := by
  rw [kvGet, kvGetEntry_kvPut_self]
  show (if now < now + ttl then some v else none) = some v
  rw [if_pos (by omega)]

/-- The tokens key never collides with a state-marker key. -/
theorem spotify_tokens_ne_oauth_key (s : String) :
    "spotify_tokens" ≠ "oauth_state_" ++ s := by
  intro h
  have hd := congrArg String.data h
  rw [String.data_append] at hd
  have h1 : "spotify_tokens".data = 's' :: "potify_tokens".data := rfl
  have h2 : "oauth_state_".data = 'o' :: "auth_state_".data := rfl
  rw [h1, h2, List.cons_append] at hd
  exact absurd (List.head_eq_of_cons_eq hd) (by decide)

/-- An in-range or defaulted `getD` stays inside the list when the default
is a member. -/
theorem getD_mem_of_mem {α : Type} (l : List α) (n : Nat) (d : α)
    (hd : d ∈ l) : l.getD n d ∈ l := by
  by_cases h : n < l.length
  · rw [List.getD_eq_getElem l d h]
    exact l.getElem_mem h
  · rw [List.getD_eq_default l d (Nat.le_of_not_lt h)]
    exact hd

/-- `generateRandomString` produces exactly the requested length. -/
theorem length_generateRandomString (n : Nat) (rand : Nat → Nat) :
    (generateRandomString n rand).length = n := by
  rw [generateRandomString, String.length_mk]
  simp

/-- Every character `generateRandomString` produces comes from `charset`. -/
theorem mem_charset_of_generateRandomString (n : Nat) (rand : Nat → Nat) :
    ∀ c ∈ (generateRandomString n rand).toList, c ∈ charset.toList := by
  intro c hc
  simp only [generateRandomString, String.toList, List.mem_map] at hc
  obtain ⟨i, _, rfl⟩ := hc
  exact getD_mem_of_mem _ _ _ (by decide)

/-! ## Claim theorems -/

/-- C1: the derived setup status is a pure function of the pair
(credentials present, tokens present) and equals exactly one of the three
defined values per the table in spec 4.1 — NOT_STARTED without
credentials, CREDENTIALS_ONLY with credentials but no tokens, COMPLETE
with both — and the root handler's status string and the health handler's
classification fields (`setup_complete`, `next_step`) compute this same
classification. -/
theorem C1_setup_status_classification (store : KVStore) (now : Nat) :
    (handleRootStatus store now).setupStatus =
      statusString (specStatus (getStoredCredentials store now).isSome
        (getStoredTokens store now).isSome) ∧
    ((handleRootStatus store now).setupStatus = "not_started" ∨
     (handleRootStatus store now).setupStatus = "credentials_only" ∨
     (handleRootStatus store now).setupStatus = "complete") ∧
    (healthInfo store now).setup_complete =
      decide (specStatus (getStoredCredentials store now).isSome
        (getStoredTokens store now).isSome = .COMPLETE) ∧
    ((healthInfo store now).next_step = "Configure Spotify credentials at /credentials" ↔
      specStatus (getStoredCredentials store now).isSome
        (getStoredTokens store now).isSome = .NOT_STARTED) ∧
    ((healthInfo store now).next_step = "Complete OAuth setup at /setup" ↔
      specStatus (getStoredCredentials store now).isSome
        (getStoredTokens store now).isSome = .CREDENTIALS_ONLY) ∧
    ((healthInfo store now).next_step = "Ready to use API endpoints" ↔
      specStatus (getStoredCredentials store now).isSome
        (getStoredTokens store now).isSome = .COMPLETE) := by
  rcases hc : getStoredCredentials store now with _ | c <;>
    rcases ht : getStoredTokens store now with _ | t <;>
      simp [handleRootStatus, healthInfo, specStatus, statusString, hc, ht]

/-- C3: a callback whose `state` was never stored, or whose marker has
expired (`kvGet` treats an expired entry as absent), yields HTTP 400 and
leaves the store untouched — in particular no Tokens record is written. -/
theorem C3_invalid_state_rejected (q : CallbackQuery) (requestUrl : String)
    (upstream : FetchResponse) (store : KVStore) (now : Nat)
    (herr : falsy q.error = true) (hcode : falsy q.code = false)
    (hstate : falsy q.state = false)
    (hmarker : kvGet store now ("oauth_state_" ++ q.state.getD "") = none) :
    (handleCallback q requestUrl upstream store now).response.status = 400 ∧
    (handleCallback q requestUrl upstream store now).response.body =
      "Invalid or expired state parameter" ∧
    (handleCallback q requestUrl upstream store now).store = store := by
  simp [handleCallback, herr, hcode, hstate, hmarker]

/-- Witness for C3 at the empty store. -/
theorem C3_invalid_state_rejected_witness :
    (handleCallback ⟨some "authcode", some "abc", none⟩
        "https://proxy.test/callback" demoFetchOk [] 0).response.status = 400 ∧
    (handleCallback ⟨some "authcode", some "abc", none⟩
        "https://proxy.test/callback" demoFetchOk [] 0).response.body =
      "Invalid or expired state parameter" ∧
    (handleCallback ⟨some "authcode", some "abc", none⟩
        "https://proxy.test/callback" demoFetchOk [] 0).store = [] :=
  C3_invalid_state_rejected ⟨some "authcode", some "abc", none⟩
    "https://proxy.test/callback" demoFetchOk [] 0 rfl rfl rfl rfl

/-- C4: a callback with a valid marker whose upstream token exchange
answers a non-success status yields HTTP 400 carrying the failure reason,
writes nothing (the store is unchanged, so no token data is stored) and
does not delete the State Marker, which stays readable. -/
theorem C4_exchange_failure_preserves_marker (q : CallbackQuery)
    (requestUrl : String) (upstream : FetchResponse) (store : KVStore)
    (now : Nat) (mv : KVValue) (creds : Credentials)
    (herr : falsy q.error = true) (hcode : falsy q.code = false)
    (hstate : falsy q.state = false)
    (hmarker : kvGet store now ("oauth_state_" ++ q.state.getD "") = some mv)
    (hcreds : getStoredCredentials store now = some creds)
    (hok : upstream.isOk = false) :
    (handleCallback q requestUrl upstream store now).response.status = 400 ∧
    (handleCallback q requestUrl upstream store now).response.body =
      "Token exchange failed: Token exchange failed: " ++ upstream.statusText ∧
    (handleCallback q requestUrl upstream store now).store = store ∧
    (handleCallback q requestUrl upstream store now).markerDeletes = 0 ∧
    kvGet (handleCallback q requestUrl upstream store now).store now
      ("oauth_state_" ++ q.state.getD "") = some mv := by
  have : handleCallback q requestUrl upstream store now =
      ⟨⟨400, [], "Token exchange failed: Token exchange failed: " ++
          upstream.statusText⟩, store, 1, 0, 1⟩ := by
    simp [handleCallback, exchangeCodeForTokens, herr, hcode, hstate, hmarker,
      hcreds, hok]
    rw [← String.append_assoc]
    rfl
  rw [this]
  exact ⟨rfl, rfl, rfl, rfl, hmarker⟩

/-- Witness for C4: marker and credentials stored, upstream answers 400. -/
theorem C4_exchange_failure_preserves_marker_witness :
    (handleCallback ⟨some "authcode", some "abc", none⟩
        "https://proxy.test/callback" demoFetchBad demoCallbackStore 0).response.status = 400 ∧
    (handleCallback ⟨some "authcode", some "abc", none⟩
        "https://proxy.test/callback" demoFetchBad demoCallbackStore 0).response.body =
      "Token exchange failed: Token exchange failed: " ++ demoFetchBad.statusText ∧
    (handleCallback ⟨some "authcode", some "abc", none⟩
        "https://proxy.test/callback" demoFetchBad demoCallbackStore 0).store =
      demoCallbackStore ∧
    (handleCallback ⟨some "authcode", some "abc", none⟩
        "https://proxy.test/callback" demoFetchBad demoCallbackStore 0).markerDeletes = 0 ∧
    kvGet (handleCallback ⟨some "authcode", some "abc", none⟩
        "https://proxy.test/callback" demoFetchBad demoCallbackStore 0).store 0
      ("oauth_state_" ++ (some "abc").getD "") = some (.raw "pending") :=
  C4_exchange_failure_preserves_marker ⟨some "authcode", some "abc", none⟩
    "https://proxy.test/callback" demoFetchBad demoCallbackStore 0
    (.raw "pending") demoCreds rfl rfl rfl (by decide) (by decide) (by decide)

/-- C10: a callback with a valid, unexpired marker but no stored
Credentials yields HTTP 400 (not 500) whose body reports the missing
credentials, writes no Tokens record (store unchanged), performs no
upstream call, and leaves the State Marker in place. -/
theorem C10_callback_without_credentials (q : CallbackQuery)
    (requestUrl : String) (upstream : FetchResponse) (store : KVStore)
    (now : Nat) (mv : KVValue)
    (herr : falsy q.error = true) (hcode : falsy q.code = false)
    (hstate : falsy q.state = false)
    (hmarker : kvGet store now ("oauth_state_" ++ q.state.getD "") = some mv)
    (hcreds : getStoredCredentials store now = none) :
    (handleCallback q requestUrl upstream store now).response.status = 400 ∧
    (handleCallback q requestUrl upstream store now).response.body =
      "Token exchange failed: No Spotify credentials found. Please complete setup first." ∧
    (handleCallback q requestUrl upstream store now).store = store ∧
    (handleCallback q requestUrl upstream store now).upstreamCalls = 0 ∧
    kvGet (handleCallback q requestUrl upstream store now).store now
      ("oauth_state_" ++ q.state.getD "") = some mv := by
  have : handleCallback q requestUrl upstream store now =
      ⟨⟨400, [], "Token exchange failed: No Spotify credentials found. Please complete setup first."⟩,
        store, 1, 0, 0⟩ := by
    simp [handleCallback, exchangeCodeForTokens, herr, hcode, hstate, hmarker,
      hcreds]
  rw [this]
  exact ⟨rfl, rfl, rfl, rfl, hmarker⟩

/-- Witness for C10: only the marker is stored. -/
theorem C10_callback_without_credentials_witness :
    (handleCallback ⟨some "authcode", some "abc", none⟩
        "https://proxy.test/callback" demoFetchOk
        [("oauth_state_abc", ⟨.raw "pending", some 600⟩)] 0).response.status = 400 ∧
    (handleCallback ⟨some "authcode", some "abc", none⟩
        "https://proxy.test/callback" demoFetchOk
        [("oauth_state_abc", ⟨.raw "pending", some 600⟩)] 0).response.body =
      "Token exchange failed: No Spotify credentials found. Please complete setup first." ∧
    (handleCallback ⟨some "authcode", some "abc", none⟩
        "https://proxy.test/callback" demoFetchOk
        [("oauth_state_abc", ⟨.raw "pending", some 600⟩)] 0).store =
      [("oauth_state_abc", ⟨.raw "pending", some 600⟩)] ∧
    (handleCallback ⟨some "authcode", some "abc", none⟩
        "https://proxy.test/callback" demoFetchOk
        [("oauth_state_abc", ⟨.raw "pending", some 600⟩)] 0).upstreamCalls = 0 ∧
    kvGet (handleCallback ⟨some "authcode", some "abc", none⟩
        "https://proxy.test/callback" demoFetchOk
        [("oauth_state_abc", ⟨.raw "pending", some 600⟩)] 0).store 0
      ("oauth_state_" ++ (some "abc").getD "") = some (.raw "pending") :=
  C10_callback_without_credentials ⟨some "authcode", some "abc", none⟩
    "https://proxy.test/callback" demoFetchOk
    [("oauth_state_abc", ⟨.raw "pending", some 600⟩)] 0
    (.raw "pending") rfl rfl rfl (by decide) (by decide)

/-- C7: with no Tokens record stored, both data routes answer HTTP 401
with the machine-readable remediation body and perform zero upstream
calls, whatever the upstream would have answered. -/
theorem C7_no_tokens_unauthorized (upstream : ApiResponse) (store : KVStore)
    (now : Nat) (h : getStoredTokens store now = none) :
    handleNowPlaying upstream store now = (⟨401, jsonCorsHeaders, noTokensBody⟩, 0) ∧
    handleRecent upstream store now = (⟨401, jsonCorsHeaders, noTokensBody⟩, 0) := by
  constructor <;> simp [handleNowPlaying, handleRecent, h]

/-- Witness for C7 at the empty store. -/
theorem C7_no_tokens_unauthorized_witness :
    handleNowPlaying ⟨200, "\x7b\x7d"⟩ [] 0 = (⟨401, jsonCorsHeaders, noTokensBody⟩, 0) ∧
    handleRecent ⟨200, "\x7b\x7d"⟩ [] 0 = (⟨401, jsonCorsHeaders, noTokensBody⟩, 0) :=
  C7_no_tokens_unauthorized ⟨200, "\x7b\x7d"⟩ [] 0 rfl

/-- C8: with Tokens stored, an upstream 204 on the currently-playing route
is normalised to an HTTP 200 whose JSON body says `playing: false`; the
204 is never passed through. -/
theorem C8_204_normalized (upstream : ApiResponse) (store : KVStore)
    (now : Nat) (t : TokenPayload)
    (ht : getStoredTokens store now = some t) (h204 : upstream.status = 204) :
    handleNowPlaying upstream store now =
      (⟨200, jsonCorsHeaders, nowPlayingIdleBody⟩, 1) ∧
    (handleNowPlaying upstream store now).1.status ≠ 204 := by
  have : handleNowPlaying upstream store now =
      (⟨200, jsonCorsHeaders, nowPlayingIdleBody⟩, 1) := by
    simp [handleNowPlaying, ht, h204]
  rw [this]
  exact ⟨rfl, by decide⟩

/-- Witness for C8: tokens stored, upstream answers 204. -/
theorem C8_204_normalized_witness :
    handleNowPlaying ⟨204, ""⟩ demoTokensStore 0 =
      (⟨200, jsonCorsHeaders, nowPlayingIdleBody⟩, 1) ∧
    (handleNowPlaying ⟨204, ""⟩ demoTokensStore 0).1.status ≠ 204 :=
  C8_204_normalized ⟨204, ""⟩ demoTokensStore 0 demoPayload (by decide) rfl

/-- C2 counterexample: a successful callback whose token payload declares
a 7200-second expiry still stores the Tokens record with a 3600-second
TTL (`expirationTtl: 3600` is hardcoded at src/index.ts line 406), so the
TTL is NOT bound to the declared expiry. -/
theorem C2_ttl_counterexample :
    (handleCallback ⟨some "authcode", some "abc", none⟩
        "https://proxy.test/callback" demoFetchLong demoCallbackStore 0).response.status = 200 ∧
    longPayload.expires_in = 7200 ∧
    kvGetEntry (handleCallback ⟨some "authcode", some "abc", none⟩
        "https://proxy.test/callback" demoFetchLong demoCallbackStore 0).store
      "spotify_tokens" = some ⟨.tokens longPayload, some 3600⟩ ∧
    kvGetEntry (handleCallback ⟨some "authcode", some "abc", none⟩
        "https://proxy.test/callback" demoFetchLong demoCallbackStore 0).store
      "spotify_tokens" ≠
      some ⟨.tokens longPayload, some (0 + longPayload.expires_in)⟩ := by
  decide

/-- C2 (amended): a callback whose `state` matches a stored, unexpired
State Marker and whose token exchange succeeds persists the returned token
payload as the Tokens record with a fixed 3600-second TTL, deletes the
consumed State Marker (exactly one marker read and one marker delete),
and returns a success confirmation. -/
theorem C2_callback_success (q : CallbackQuery) (requestUrl : String)
    (upstream : FetchResponse) (store : KVStore) (now : Nat) (mv : KVValue)
    (creds : Credentials)
    (herr : falsy q.error = true) (hcode : falsy q.code = false)
    (hstate : falsy q.state = false)
    (hmarker : kvGet store now ("oauth_state_" ++ q.state.getD "") = some mv)
    (hcreds : getStoredCredentials store now = some creds)
    (hok : upstream.isOk = true) :
    (handleCallback q requestUrl upstream store now).response.status = 200 ∧
    (handleCallback q requestUrl upstream store now).response.body =
      callbackSuccessHTML ∧
    (handleCallback q requestUrl upstream store now).markerReads = 1 ∧
    (handleCallback q requestUrl upstream store now).markerDeletes = 1 ∧
    kvGetEntry (handleCallback q requestUrl upstream store now).store
      "spotify_tokens" = some ⟨.tokens upstream.tokenData, some (now + 3600)⟩ ∧
    kvGet (handleCallback q requestUrl upstream store now).store now
      ("oauth_state_" ++ q.state.getD "") = none := by
  have hr : handleCallback q requestUrl upstream store now =
      ⟨⟨200, htmlCorsHeaders, callbackSuccessHTML⟩,
        kvDelete (kvPut store now "spotify_tokens" (.tokens upstream.tokenData)
          (some 3600)) ("oauth_state_" ++ q.state.getD ""),
        1, 1, 1⟩ := by
    simp [handleCallback, exchangeCodeForTokens, herr, hcode, hstate, hmarker,
      hcreds, hok]
  rw [hr]
  refine ⟨rfl, rfl, rfl, rfl, ?_, ?_⟩
  · rw [kvGetEntry_kvDelete_ne _ _ _ (spotify_tokens_ne_oauth_key _)]
    exact kvGetEntry_kvPut_self store now "spotify_tokens"
      (.tokens upstream.tokenData) (some 3600)
  · exact kvGet_kvDelete_self _ _ _

/-- Witness for the amended C2: marker and credentials stored, upstream
succeeds with the usual one-hour payload. -/
theorem C2_callback_success_witness :
    (handleCallback ⟨some "authcode", some "abc", none⟩
        "https://proxy.test/callback" demoFetchOk demoCallbackStore 0).response.status = 200 ∧
    (handleCallback ⟨some "authcode", some "abc", none⟩
        "https://proxy.test/callback" demoFetchOk demoCallbackStore 0).response.body =
      callbackSuccessHTML ∧
    (handleCallback ⟨some "authcode", some "abc", none⟩
        "https://proxy.test/callback" demoFetchOk demoCallbackStore 0).markerReads = 1 ∧
    (handleCallback ⟨some "authcode", some "abc", none⟩
        "https://proxy.test/callback" demoFetchOk demoCallbackStore 0).markerDeletes = 1 ∧
    kvGetEntry (handleCallback ⟨some "authcode", some "abc", none⟩
        "https://proxy.test/callback" demoFetchOk demoCallbackStore 0).store
      "spotify_tokens" = some ⟨.tokens demoFetchOk.tokenData, some (0 + 3600)⟩ ∧
    kvGet (handleCallback ⟨some "authcode", some "abc", none⟩
        "https://proxy.test/callback" demoFetchOk demoCallbackStore 0).store 0
      ("oauth_state_" ++ (some "abc").getD "") = none :=
  C2_callback_success ⟨some "authcode", some "abc", none⟩
    "https://proxy.test/callback" demoFetchOk demoCallbackStore 0
    (.raw "pending") demoCreds rfl rfl rfl (by decide) (by decide) (by decide)

/-- C5: a credential submission with an empty or missing field, a client
id shorter than 30 characters, or a client id containing a character that
is neither a letter nor a digit, yields HTTP 400 and leaves the store —
in particular the Credentials record — unmodified. -/
theorem C5_invalid_credentials_rejected (form : CredentialsForm)
    (nowIso origin : String) (store : KVStore) (now : Nat)
    (h : falsy form.client_id = true ∨ falsy form.client_secret = true ∨
      ∃ cid, form.client_id = some cid ∧
        (cid.length < 30 ∨ ∃ c ∈ cid.toList, (c.isAlpha || c.isDigit) = false)) :
    (handleCredentials "POST" form nowIso origin store now).1.status = 400 ∧
    (handleCredentials "POST" form nowIso origin store now).2 = store := by
  by_cases h1 : (falsy form.client_id || falsy form.client_secret) = true
  · constructor <;> simp [handleCredentials, h1]
  · have hid : falsy form.client_id = false := by
      revert h1
      cases falsy form.client_id <;> simp
    have hsec : falsy form.client_secret = false := by
      revert h1
      cases falsy form.client_secret <;> simp
    rcases h with h | h | ⟨cid, hcid, hbad⟩
    · rw [hid] at h
      exact absurd h (by simp)
    · rw [hsec] at h
      exact absurd h (by simp)
    · have hif : (decide (cid.length < 30) || !matchesClientIdPattern cid) = true := by
        rcases hbad with hl | ⟨c, hc, hcb⟩
        · simp [hl]
        · have hall : cid.toList.all (fun c => c.isAlpha || c.isDigit) = false := by
            rw [Bool.eq_false_iff]
            intro hall
            rw [List.all_eq_true] at hall
            have hcontra := hall c hc
            rw [hcb] at hcontra
            exact Bool.false_ne_true hcontra
          have hm : matchesClientIdPattern cid = false := by
            unfold matchesClientIdPattern
            rw [hall, Bool.and_false]
          rw [hm]
          simp
      have hfc : falsy (some cid) = false := by rw [← hcid]; exact hid
      constructor <;> simp [handleCredentials, hcid, hfc, hsec, hif]

/-- Witness for C5: a six-character client id is rejected and the empty
store stays empty. -/
theorem C5_invalid_credentials_rejected_witness :
    (handleCredentials "POST" ⟨some "short1", some "secret"⟩ "2026-01-01"
        "https://proxy.test" [] 0).1.status = 400 ∧
    (handleCredentials "POST" ⟨some "short1", some "secret"⟩ "2026-01-01"
        "https://proxy.test" [] 0).2 = [] :=
  C5_invalid_credentials_rejected ⟨some "short1", some "secret"⟩ "2026-01-01"
    "https://proxy.test" [] 0
    (Or.inr (Or.inr ⟨"short1", rfl, Or.inl (by decide)⟩))

/-- C6: a POST to `/setup` with Credentials stored generates a state of
(at least) 16 characters drawn from the alphanumeric alphabet, persists
`oauth_state_<state> ↦ pending` with a 600-second TTL, and answers a 302
whose Location is the upstream authorization URL built from response type
"code", the stored client id, the three scopes, the callback URL derived
from the request origin plus `/callback`, and the generated state. -/
theorem C6_setup_initiation (origin : String) (rand : Nat → Nat)
    (store : KVStore) (now : Nat) (creds : Credentials)
    (hc : getStoredCredentials store now = some creds) :
    (handleSetup "POST" origin rand store now).1.status = 302 ∧
    16 ≤ (generateRandomString 16 rand).length ∧
    (∀ c ∈ (generateRandomString 16 rand).toList, c ∈ charset.toList) ∧
    (handleSetup "POST" origin rand store now).1.headers =
      [("Location",
        "https://accounts.spotify.com/authorize?" ++ "response_type=code&" ++
        "client_id=" ++ creds.client_id ++ "&" ++
        "scope=" ++ encodeURIComponent spotifyScopes ++ "&" ++
        "redirect_uri=" ++ encodeURIComponent (origin ++ "/callback") ++ "&" ++
        "state=" ++ generateRandomString 16 rand)] ∧
    kvGet (handleSetup "POST" origin rand store now).2 now
      ("oauth_state_" ++ generateRandomString 16 rand) = some (.raw "pending") ∧
    kvGetEntry (handleSetup "POST" origin rand store now).2
      ("oauth_state_" ++ generateRandomString 16 rand) =
      some ⟨.raw "pending", some (now + 600)⟩ := by
  have hr : handleSetup "POST" origin rand store now =
      (redirect302
        ("https://accounts.spotify.com/authorize?" ++ "response_type=code&" ++
          "client_id=" ++ creds.client_id ++ "&" ++
          "scope=" ++ encodeURIComponent spotifyScopes ++ "&" ++
          "redirect_uri=" ++ encodeURIComponent (origin ++ "/callback") ++ "&" ++
          "state=" ++ generateRandomString 16 rand),
       kvPut store now ("oauth_state_" ++ generateRandomString 16 rand)
         (.raw "pending") (some 600)) := by
    simp [handleSetup, hc]
  refine ⟨?_, ?_, mem_charset_of_generateRandomString 16 rand, ?_, ?_, ?_⟩
  · rw [hr]; rfl
  · rw [length_generateRandomString]
  · rw [hr]; rfl
  · rw [hr]
    exact kvGet_kvPut_self store now _ (.raw "pending") 600 (by omega)
  · rw [hr]
    exact kvGetEntry_kvPut_self store now _ (.raw "pending") (some 600)

/-- Witness for C6: credentials stored, the random source always draws 0,
so the state is sixteen letters A. -/
theorem C6_setup_initiation_witness :
    (handleSetup "POST" "https://proxy.test" (fun _ => 0) demoCredsStore 0).1.status = 302 ∧
    16 ≤ (generateRandomString 16 (fun _ => 0)).length ∧
    (∀ c ∈ (generateRandomString 16 (fun _ => 0)).toList, c ∈ charset.toList) ∧
    (handleSetup "POST" "https://proxy.test" (fun _ => 0) demoCredsStore 0).1.headers =
      [("Location",
        "https://accounts.spotify.com/authorize?" ++ "response_type=code&" ++
        "client_id=" ++ demoCreds.client_id ++ "&" ++
        "scope=" ++ encodeURIComponent spotifyScopes ++ "&" ++
        "redirect_uri=" ++ encodeURIComponent ("https://proxy.test" ++ "/callback") ++ "&" ++
        "state=" ++ generateRandomString 16 (fun _ => 0))] ∧
    kvGet (handleSetup "POST" "https://proxy.test" (fun _ => 0) demoCredsStore 0).2 0
      ("oauth_state_" ++ generateRandomString 16 (fun _ => 0)) = some (.raw "pending") ∧
    kvGetEntry (handleSetup "POST" "https://proxy.test" (fun _ => 0) demoCredsStore 0).2
      ("oauth_state_" ++ generateRandomString 16 (fun _ => 0)) =
      some ⟨.raw "pending", some (0 + 600)⟩ :=
  C6_setup_initiation "https://proxy.test" (fun _ => 0) demoCredsStore 0
    demoCreds (by decide)

/-- C9 fails on the code: the callback handler's OAuth-error response is
built without any headers (src/index.ts line 381 passes only `status` to
`new Response`), so this response carries none of the permissive
cross-origin headers — contradicting the `corsHeaders` comment "CORS
headers for all responses". -/
theorem C9_callback_error_lacks_cors :
    (handleCallback ⟨none, none, some "access_denied"⟩
        "https://proxy.test/callback" demoFetchOk [] 0).response =
      ⟨400, [], "OAuth Error: access_denied"⟩ ∧
    corsHeaders ≠ [] ∧
    (∀ p ∈ corsHeaders,
      p ∉ (handleCallback ⟨none, none, some "access_denied"⟩
        "https://proxy.test/callback" demoFetchOk [] 0).response.headers) := by
  decide

end SpotifyProxy
